import Mathlib

/-!
Verification model of the yapapi mid-level API (johny-b/yapapi).

Shallow embedding of:
* `yapapi/mid/resource.py` — the `ResourceMeta` identity registry,
  `Resource.add_child` / `set_no_more_children` / `child_aiter` / `get_data`;
* `yapapi/mid/market.py` — `Proposal.add_event` sealing and
  `Agreement.wait_for_approval`;
* `yapapi/script/__init__.py` — `Script._before`, `Script._evaluate`,
  `Script.add`, `Script._set_cmd_result`;
* the `DecreaseScoreForUnconfirmedAgreement` strategy (modelled from the
  spec, its source is not in the repository snapshot — only its tests are).

Data snapshots (`Resource._data`, python `Any`) are modelled by a type
parameter `D` with decidable equality, mirroring python value equality.
Object identity of live python instances is modelled by a `token : Nat`
drawn from a counter in the node state.
-/

/-- A live `Resource` instance as registered in `GolemNode._resources`.
`token` models python object identity (two equal tokens = the same live
object); `kind` models the concrete `Resource` subclass (`cls`); `rid` is
the resource id; `rdata` is `Resource._data`. -/
structure Res (D : Type) where
  token : Nat
  kind : String
  rid : String
  rdata : Option D
deriving Repr, DecidableEq

/-- Events emitted on `node.event_bus` by the code in `resource.py`:
`NewResource(obj)` from `ResourceMeta.__call__` and
`ResourceDataChanged(resource, old_data)` from `Resource.get_data`.
The resource is identified by its token. -/
inductive BusEvent (D : Type) where
  | newResource (token : Nat)
  | resourceDataChanged (token : Nat) (old : Option D)
deriving Repr, DecidableEq

/-- The slice of `GolemNode` state that `ResourceMeta.__call__` touches:
the per-(class, id) registry `node._resources`, the event bus log, and a
counter supplying fresh object-identity tokens. -/
structure NodeState (D : Type) where
  resources : List (String × String × Res D)
  events : List (BusEvent D)
  nextToken : Nat
deriving Repr, DecidableEq

/-- `id_ in node._resources[cls]` / `node._resources[cls][id_]`: first
matching entry of the association list. -/
def lookupRes {D : Type} (s : NodeState D) (k : String) (i : String) : Option (Res D) :=
  (s.resources.find? (fun e => e.1 == k && e.2.1 == i)).map (fun e => e.2.2)

/-- Failure of the python `assert` in `ResourceMeta.__call__`
(`assert id_ not in node._resources[cls]`, fired when `args` is nonempty). -/
inductive MetaErr where
  | dataForExistingResource
deriving Repr, DecidableEq

/-- `ResourceMeta.__call__(cls, node, id_, *args)` from `resource.py`:
when data is passed the id must be fresh (assertion); a fresh id gets a
newly constructed, registered instance and one `NewResource` event; a
known id returns the registered instance unchanged. -/
def metaCall {D : Type} (s : NodeState D) (k : String) (i : String) (dataArg : Option D) :
    Except MetaErr (NodeState D × Res D) :=
  if dataArg.isSome && (lookupRes s k i).isSome then
    Except.error MetaErr.dataForExistingResource
  else
    match lookupRes s k i with
    | some r => Except.ok (s, r)
    | none =>
        let r : Res D := ⟨s.nextToken, k, i, dataArg⟩
        Except.ok ({ resources := (k, i, r) :: s.resources,
                     events := s.events ++ [BusEvent.newResource r.token],
                     nextToken := s.nextToken + 1 }, r)

/-- Registry well-formedness: every registered token was drawn from the
counter, so the counter value itself is fresh. -/
def TokensBelowCounter {D : Type} (s : NodeState D) : Prop :=
  ∀ e ∈ s.resources, e.2.2.token < s.nextToken

theorem lookupRes_after_insert {D : Type} (s : NodeState D) (k i : String) (r : Res D)
    (ev : List (BusEvent D)) (n : Nat) :
    lookupRes ⟨(k, i, r) :: s.resources, ev, n⟩ k i = some r := by
  simp [lookupRes, List.find?]

theorem metaCall_fresh {D : Type} (s : NodeState D) (k i : String) (d : Option D)
    (h : lookupRes s k i = none) :
    metaCall s k i d =
      Except.ok ({ resources := (k, i, (⟨s.nextToken, k, i, d⟩ : Res D)) :: s.resources,
                   events := s.events ++ [BusEvent.newResource s.nextToken],
                   nextToken := s.nextToken + 1 },
                 (⟨s.nextToken, k, i, d⟩ : Res D)) := by
  simp [metaCall, h]

theorem metaCall_known {D : Type} (s : NodeState D) (k i : String) (r : Res D)
    (h : lookupRes s k i = some r) :
    metaCall s k i none = Except.ok (s, r) := by
  simp [metaCall, h]

/-!
### Child iteration — `Resource.child_aiter` (`resource.py`)

`child_aiter` keeps a cursor `cnt`.  At the top of its loop it yields
`children[cnt]` when `cnt < len(children)`; otherwise it suspends on
`asyncio.wait((sleep(0.1), stop_task))` and, on wake-up, breaks when the
`_no_more_children` future is done and re-enters the loop otherwise.
We model the iterator as a small-step machine interleaved (by a free
scheduler) with `add_child` appends and `set_no_more_children`.
-/

/-- The iterator position in `child_aiter`: at the top of the `while`
loop (`running`), suspended in `asyncio.wait` (`waiting`), or broken out
of the loop (`halted`). -/
inductive IterPhase where
  | running
  | waiting
  | halted
deriving Repr, DecidableEq

/-- Combined state of one resource (children list, one-shot
`_no_more_children` flag) and one `child_aiter` consumer (`cnt` cursor
plus loop phase).  Children are identified by numeric tokens. -/
structure IterState where
  children : List Nat
  noMore : Bool
  cnt : Nat
  phase : IterPhase
deriving Repr, DecidableEq

/-- One interleaving action: another task appends a child
(`Resource.add_child`), another task seals the resource
(`set_no_more_children`), or the iterator task gets scheduled for one
step of `child_aiter`. -/
inductive IterAct where
  | addChild (c : Nat)
  | seal
  | istep
deriving Repr, DecidableEq

/-- One scheduler step.  Returns the new state and the child yielded by
this step, if any.  `istep` in `running` phase is the top-of-loop check
of `child_aiter` (yield and advance, or start waiting); `istep` in
`waiting` phase is the wake-up from `asyncio.wait`: the code breaks when
`stop_task.done()` and otherwise loops, without re-checking for children
appended during the wait before breaking. -/
def iterStep (s : IterState) : IterAct → IterState × Option Nat
  | IterAct.addChild c => ({ s with children := s.children ++ [c] }, none)
  | IterAct.seal => ({ s with noMore := true }, none)
  | IterAct.istep =>
    match s.phase with
    | IterPhase.running =>
        if h : s.cnt < s.children.length then
          ({ s with cnt := s.cnt + 1 }, some (s.children.get ⟨s.cnt, h⟩))
        else
          ({ s with phase := IterPhase.waiting }, none)
    | IterPhase.waiting =>
        if s.noMore then ({ s with phase := IterPhase.halted }, none)
        else ({ s with phase := IterPhase.running }, none)
    | IterPhase.halted => (s, none)

/-- Run a whole interleaving, collecting the yielded children in order. -/
def iterRun (s : IterState) : List IterAct → IterState × List Nat
  | [] => (s, [])
  | a :: rest =>
      let (s1, y) := iterStep s a
      let (s2, ys) := iterRun s1 rest
      (s2, (y.toList) ++ ys)

/-- Fresh resource with a fresh iterator. -/
def iterInit : IterState := ⟨[], false, 0, IterPhase.running⟩

/-!
### Data refresh — `Resource.get_data` (`resource.py`)

`get_data(force)` re-fetches when `self._data is None or force`, stores
the fetched snapshot, and emits `ResourceDataChanged(self, old_data)`
exactly when the new snapshot differs from the old one.  The remote
fetch `self._get_data()` is modelled by the `fetched` argument.
-/

/-- Per-resource observable state for `get_data`: the cached snapshot
and the log of `ResourceDataChanged` events emitted for this resource
(each carrying the old data). -/
structure DataState (D : Type) where
  rdata : Option D
  changedEvents : List (Option D)
deriving Repr, DecidableEq

/-- `Resource.get_data(force)` with the remote fetch returning
`fetched`; returns the new state and the returned `self._data`. -/
def getData {D : Type} [DecidableEq D] (s : DataState D) (fetched : D) (force : Bool) :
    DataState D × Option D :=
  if s.rdata.isNone || force then
    let old := s.rdata
    if old ≠ some fetched then
      (⟨some fetched, s.changedEvents ++ [old]⟩, some fetched)
    else
      (⟨some fetched, s.changedEvents⟩, some fetched)
  else
    (s, s.rdata)

/-!
### Proposal sealing and child attachment — `market.py` / `resource.py`

`Proposal.add_event` appends the raw yagna event to `self._events` and,
for a `ProposalRejectedEvent`, calls `set_no_more_children`.
`Resource.add_child(child)` runs `child.parent = self` (which asserts
`child._parent is None`) and appends the child to `self._children`; it
never consults the `_no_more_children` flag.
-/

/-- Raw yagna market events routed to `Proposal.add_event`. -/
inductive YagnaEvent where
  | proposalEvent
  | proposalRejectedEvent
deriving Repr, DecidableEq

/-- The tree-relevant state of one `Proposal` node: its identity token,
its `_parent` back-reference (by token), its `_children` (by token), the
one-shot `_no_more_children` flag and the `_events` log. -/
structure PNode where
  token : Nat
  parentTok : Option Nat
  childrenToks : List Nat
  noMore : Bool
  eventsLog : List YagnaEvent
deriving Repr, DecidableEq

/-- `Proposal.add_event` (`market.py`): log the event; a
`ProposalRejectedEvent` additionally seals the node via
`set_no_more_children` (idempotent one-shot). -/
def addEvent (p : PNode) (e : YagnaEvent) : PNode :=
  let p1 := { p with eventsLog := p.eventsLog ++ [e] }
  match e with
  | YagnaEvent.proposalRejectedEvent => { p1 with noMore := true }
  | YagnaEvent.proposalEvent => p1

/-- Failure of the `assert self._parent is None` in the
`Resource.parent` setter. -/
inductive TreeErr where
  | parentAlreadySet
deriving Repr, DecidableEq

/-- `Resource.add_child` (`resource.py`): set the child parent (asserts
it was unset) and append the child token to the parent children list.
Returns the updated (parent, child) pair. -/
def addChild (parent child : PNode) : Except TreeErr (PNode × PNode) :=
  if child.parentTok.isSome then
    Except.error TreeErr.parentAlreadySet
  else
    Except.ok ({ parent with childrenToks := parent.childrenToks ++ [child.token] },
               { child with parentTok := some parent.token })

/-!
### Agreement approval wait — `Agreement.wait_for_approval` (`market.py`)

The call returns `True` on success, `False` on an `ApiException` with
status 410, retries itself (immediately, no sleep, no counter) on status
408, and re-raises any other `ApiException`.  The remote side is
modelled as the stream of responses the successive calls would get.
-/

/-- One remote response to `wait_for_approval`: success or an
`ApiException` with the given HTTP status. -/
inductive ApiResult where
  | ok
  | err (status : Nat)
deriving Repr, DecidableEq

/-- Observable outcome of `Agreement.wait_for_approval` on a finite
prefix of remote responses: a boolean result, a re-raised exception
status, or still retrying when the prefix is exhausted (the code has no
retry limit). -/
inductive WaitOutcome where
  | result (approved : Bool)
  | raised (status : Nat)
  | stillRetrying
deriving Repr, DecidableEq

/-- `Agreement.wait_for_approval` (`market.py`) run against a stream of
remote responses. -/
def waitForApproval : List ApiResult → WaitOutcome
  | [] => WaitOutcome.stillRetrying
  | ApiResult.ok :: _ => WaitOutcome.result true
  | ApiResult.err s :: rest =>
      if s = 410 then WaitOutcome.result false
      else if s = 408 then waitForApproval rest
      else WaitOutcome.raised s

/-!
### Decay scoring strategy — `DecreaseScoreForUnconfirmedAgreement`

Modelled from the spec: the class `DecreaseScoreForUnconfirmedAgreement`
of `yapapi.strategy` is not part of the repository snapshot (only its
test `tests/strategy/test_decrease_score_for_unconfirmed.py` is).  Per
the spec the strategy wraps a base scoring function, keeps an in-memory
`provider_id -> rejection_count` map defaulting to 0, increments the
count of a provider on `AgreementRejected`, resets it to 0 on
`AgreementConfirmed`, and scores an offer as `base * factor` when the
count of the offer provider is nonzero and as `base` otherwise.
-/

/-- Engine events consumed by the strategy (provider ids are numeric,
as in the test data). -/
inductive AgreementEvent where
  | rejected (provider : Nat)
  | confirmed (provider : Nat)
deriving Repr, DecidableEq

/-- Modelled from the spec: one `on_event` update of the
`rejection_count` map. -/
def updateCount (m : Nat → Nat) : AgreementEvent → Nat → Nat
  | AgreementEvent.rejected p => fun q => if q = p then m p + 1 else m q
  | AgreementEvent.confirmed p => fun q => if q = p then 0 else m q

/-- Modelled from the spec: the `rejection_count` map after delivering a
sequence of events to a freshly constructed strategy (all counts 0). -/
def rejectionCounts (evs : List AgreementEvent) : Nat → Nat :=
  evs.foldl updateCount (fun _ => 0)

/-- Modelled from the spec: `score_offer` of the decay strategy, the
wrapped base strategy returning the constant `base`. -/
def scoreOffer (base factor : ℚ) (m : Nat → Nat) (p : Nat) : ℚ :=
  if 0 < m p then base * factor else base

/-- The expected score table of `test_decrease_score_for`: with base 6
and factor 1/2, providers in the decreased set score 3 and the others
score 6. -/
def expectedScore (decreased : List Nat) (p : Nat) : ℚ :=
  if p ∈ decreased then 3 else 6

/-- One row of the `sample_data` table of
`test_decrease_score_for_unconfirmed.py`: deliver the events, then check
the scores of providers 1 and 2. -/
def scoreRowMatches (evs : List AgreementEvent) (decreased : List Nat) : Prop :=
  scoreOffer 6 (1/2) (rejectionCounts evs) 1 = expectedScore decreased 1 ∧
  scoreOffer 6 (1/2) (rejectionCounts evs) 2 = expectedScore decreased 2

instance (evs : List AgreementEvent) (decreased : List Nat) :
    Decidable (scoreRowMatches evs decreased) := by
  unfold scoreRowMatches
  infer_instance

/-!
### Scripts — `yapapi/script/__init__.py`

`Script._commands` is an ordered list of (command, future) pairs.
`add(cmd)` appends a pair with a fresh pending future (the index of the
new command is its position, `len` before the append).  `_before`
prepends `(Deploy(), fresh future)` and `(Start(), fresh future)` and
marks the context started when the context has `_implicit_init` set and
is not yet started.  `_evaluate` maps `cmd.evaluate(ctx)` over the
commands in list order.  `_set_cmd_result(result)` looks up
`self._commands[result.cmd_idx]` (an out-of-range index is an
`IndexError`, a local fatal error) and resolves that future
(`Future.set_result` on an already-resolved future is an
`InvalidStateError`).
-/

/-- Commands of `yapapi.script.command` as added to a `Script`.  `other`
stands for any of the remaining command constructors — C8/C9 only
depend on command order, not on command payloads. -/
inductive Command where
  | deploy
  | start (args : List String)
  | terminate
  | run (cmd : String) (args : List String)
  | other (tag : Nat)
deriving Repr, DecidableEq

/-- Modelled from the spec: the wire form `cmd.evaluate(ctx)` of one
command (`yapapi/script/command.py` is not in the snapshot); serialization
is per command, so it is modelled as an opaque injective wrapper. -/
structure BatchCommand where
  ofCommand : Command
deriving Repr, DecidableEq

/-- Modelled from the spec: per-command serialization used by
`Script._evaluate`. -/
def evaluateCmd (c : Command) : BatchCommand := ⟨c⟩

/-- The slice of `WorkContext` consulted by `Script._before`:
`_started` and `_implicit_init`. -/
structure Ctx where
  started : Bool
  implicitInit : Bool
deriving Repr, DecidableEq

/-- A `Script`: `_commands` as (command, result-slot) pairs, a slot
`none` being a pending future and `some r` a future resolved with `r`. -/
structure ScriptState (R : Type) where
  commands : List (Command × Option R)
deriving Repr, DecidableEq

/-- `Script.add` (`script/__init__.py`): append the command with a fresh
pending future; the position of the new command is the former length. -/
def scriptAdd {R : Type} (s : ScriptState R) (c : Command) : ScriptState R × Nat :=
  (⟨s.commands ++ [(c, none)]⟩, s.commands.length)

/-- `Script._before` (`script/__init__.py`), restricted to its effect on
`_commands` and the context (the per-command `before` hooks touch
neither): `insert(0, (Deploy(), fut)); insert(1, (Start(), fut));
ctx._started = True` when `not ctx._started and ctx._implicit_init`. -/
def scriptBefore {R : Type} (s : ScriptState R) (ctx : Ctx) : ScriptState R × Ctx :=
  if !ctx.started && ctx.implicitInit then
    (⟨(Command.deploy, none) :: (Command.start [], none) :: s.commands⟩,
     { ctx with started := true })
  else
    (s, ctx)

/-- `Script._evaluate` (`script/__init__.py`): serialize the commands in
list order. -/
def scriptEvaluate {R : Type} (s : ScriptState R) : List BatchCommand :=
  s.commands.map (fun c => evaluateCmd c.1)

/-- The two python exceptions `Script._set_cmd_result` can raise: an
`IndexError` on `self._commands[result.cmd_idx]` (out of range) and an
`InvalidStateError` from `Future.set_result` on a resolved future.
Both are local errors, not remote `ApiException`s. -/
inductive SetResultErr where
  | indexOutOfRange
  | alreadyResolved
deriving Repr, DecidableEq

/-- `Script._set_cmd_result(result)` (`script/__init__.py`): resolve the
future of the command at `result.cmd_idx` with `result`. -/
def setCmdResult {R : Type} (s : ScriptState R) (idx : Nat) (r : R) :
    Except SetResultErr (ScriptState R) :=
  match s.commands.get? idx with
  | none => Except.error SetResultErr.indexOutOfRange
  | some (_, some _) => Except.error SetResultErr.alreadyResolved
  | some (c, none) => Except.ok ⟨s.commands.set idx (c, some r)⟩

/-!
## Claim theorems
-/

/-- C1: for every resource kind and id, two constructions/lookups of a
resource with the same (kind, id) pair on the same node return the
identical live instance; the first such call (on an unregistered pair)
emits exactly one new-resource event on the event bus, and every later
call for the same pair emits no event (the node state, its event log
included, is returned unchanged). -/
theorem c1_identity_single_event {D : Type} (s : NodeState D) (k i : String) (d : Option D)
    (h : lookupRes s k i = none) :
    ∃ s1 r1, metaCall s k i d = Except.ok (s1, r1) ∧
      s1.events = s.events ++ [BusEvent.newResource r1.token] ∧
      metaCall s1 k i none = Except.ok (s1, r1) := by
  refine ⟨_, _, metaCall_fresh s k i d h, rfl, ?_⟩
  exact metaCall_known _ k i _ (lookupRes_after_insert s k i _ _ _)

theorem c1_identity_single_event_witness :
    lookupRes (D := Nat) ⟨[], [], 0⟩ "Proposal" "p1" = none ∧
    ∃ s1 r1, metaCall (D := Nat) ⟨[], [], 0⟩ "Proposal" "p1" (some 7) = Except.ok (s1, r1) ∧
      s1.events = ([] : List (BusEvent Nat)) ++ [BusEvent.newResource r1.token] ∧
      metaCall s1 "Proposal" "p1" none = Except.ok (s1, r1) :=
  ⟨rfl, c1_identity_single_event ⟨[], [], 0⟩ "Proposal" "p1" (some 7) rfl⟩

/-- C2: the code of `ResourceMeta.__call__` emits the same `NewResource`
event on first registration whether or not data was supplied — the two
cases are not distinguishable by event type, while `events.py` documents
distinct `ResourceFound` / `ResourceCreated` events for exactly these two
cases.  Evaluated here at a data-supplied and a data-free first
registration: both emit the single event `BusEvent.newResource 0`. -/
theorem c2_new_resource_event_not_distinguished :
    metaCall (D := Nat) ⟨[], [], 0⟩ "Allocation" "a1" (some 5) =
      Except.ok (⟨[("Allocation", "a1", ⟨0, "Allocation", "a1", some 5⟩)],
                  [BusEvent.newResource 0], 1⟩, ⟨0, "Allocation", "a1", some 5⟩) ∧
    metaCall (D := Nat) ⟨[], [], 0⟩ "Offer" "o1" none =
      Except.ok (⟨[("Offer", "o1", ⟨0, "Offer", "o1", none⟩)],
                  [BusEvent.newResource 0], 1⟩, ⟨0, "Offer", "o1", none⟩) :=
  ⟨rfl, rfl⟩

/-- C3: counterexample to the claim that no pre-seal child is ever
skipped.  Interleaving: the iterator finds no child and starts waiting;
another task appends child 5 and then seals the resource; the iterator
wakes up, sees the no-more-children future done and breaks without
re-checking the children list.  The run terminates (phase `halted`) with
child 5 added before the seal but never yielded. -/
theorem c3_pre_seal_child_skipped :
    iterRun iterInit [IterAct.istep, IterAct.addChild 5, IterAct.seal, IterAct.istep] =
      (⟨[5], true, 0, IterPhase.halted⟩, []) := rfl

/-- C4: a refresh (`get_data(force=True)`) whose fetched snapshot equals
the stored snapshot emits no event and leaves the resource state exactly
unchanged; a refresh whose fetched snapshot differs emits exactly one
`ResourceDataChanged` event carrying the prior snapshot as its old data
and stores the new snapshot. -/
theorem c4_change_suppression {D : Type} [DecidableEq D] (s : DataState D) (d0 d1 : D)
    (h : s.rdata = some d0) (hne : d1 ≠ d0) :
    getData s d0 true = (s, some d0) ∧
    getData s d1 true = (⟨some d1, s.changedEvents ++ [some d0]⟩, some d1) := by
  obtain ⟨rd, ce⟩ := s
  simp only [DataState.mk.injEq] at h
  subst h
  constructor
  · simp [getData]
  · have : (some d0 : Option D) ≠ some d1 := by
      intro hcontra
      exact hne (Option.some.injEq d0 d1 ▸ hcontra).symm
    simp [getData, this]

theorem c4_change_suppression_witness :
    ((⟨some 3, []⟩ : DataState Nat).rdata = some 3 ∧ (4 : Nat) ≠ 3) ∧
    (getData (⟨some 3, []⟩ : DataState Nat) 3 true = (⟨some 3, []⟩, some 3) ∧
     getData (⟨some 3, []⟩ : DataState Nat) 4 true = (⟨some 4, [some 3]⟩, some 4)) :=
  ⟨⟨rfl, by decide⟩, c4_change_suppression ⟨some 3, []⟩ 3 4 rfl (by decide)⟩

/-- C5 counterexample: after a `ProposalRejectedEvent` the node is sealed
(`noMore = true`), yet a subsequent `add_child` of a fresh child
SUCCEEDS and appends the child — it does not fail as a consistency
violation, contradicting the claim. -/
theorem c5_sealed_node_accepts_child :
    (addEvent ⟨1, some 0, [], false, []⟩ YagnaEvent.proposalRejectedEvent).noMore = true ∧
    addChild (addEvent ⟨1, some 0, [], false, []⟩ YagnaEvent.proposalRejectedEvent)
        ⟨2, none, [], false, []⟩ =
      Except.ok (⟨1, some 0, [2], true, [YagnaEvent.proposalRejectedEvent]⟩,
                 ⟨2, some 1, [], false, []⟩) :=
  ⟨rfl, rfl⟩

/-- C5 (amended): receiving a proposal event marked Rejected seals the
node (its no-more-children signal is set); however, a subsequent attempt
to attach a child to this sealed node is not rejected: `add_child`
appends the child whenever the child has no parent yet, regardless of
the sealed flag, and fails (assertion in the `parent` setter) exactly
when the child already has a parent. -/
theorem c5_seal_and_attach_behavior (p child : PNode) :
    (addEvent p YagnaEvent.proposalRejectedEvent).noMore = true ∧
    (child.parentTok = none →
      addChild p child =
        Except.ok ({ p with childrenToks := p.childrenToks ++ [child.token] },
                   { child with parentTok := some p.token })) ∧
    (∀ t, child.parentTok = some t →
      addChild p child = Except.error TreeErr.parentAlreadySet) := by
  refine ⟨rfl, ?_, ?_⟩
  · intro h
    simp [addChild, h]
  · intro t h
    simp [addChild, h]

theorem c5_seal_and_attach_behavior_witness :
    (addChild ⟨1, some 0, [], true, [YagnaEvent.proposalRejectedEvent]⟩ ⟨2, none, [], false, []⟩ =
      Except.ok (⟨1, some 0, [2], true, [YagnaEvent.proposalRejectedEvent]⟩,
                 ⟨2, some 1, [], false, []⟩)) ∧
    (addChild ⟨1, some 0, [], true, []⟩ ⟨3, some 9, [], false, []⟩ =
      Except.error TreeErr.parentAlreadySet) :=
  ⟨(c5_seal_and_attach_behavior ⟨1, some 0, [], true, [YagnaEvent.proposalRejectedEvent]⟩
      ⟨2, none, [], false, []⟩).2.1 rfl,
   (c5_seal_and_attach_behavior ⟨1, some 0, [], true, []⟩ ⟨3, some 9, [], false, []⟩).2.2 9 rfl⟩

/-- C6: `wait_for_approval` resolves a remote 410 (gone/invalidated) to
the boolean result `false` rather than an error; a remote 408 (request
timeout) causes the wait to be retried with no retry limit (any number
of leading 408 responses is transparent); every other remote failure
status is re-raised unchanged to the caller. -/
theorem c6_wait_for_approval_policy :
    (∀ rest, waitForApproval (ApiResult.err 410 :: rest) = WaitOutcome.result false) ∧
    (∀ n rest, waitForApproval (List.replicate n (ApiResult.err 408) ++ rest) =
        waitForApproval rest) ∧
    (∀ s rest, s ≠ 408 → s ≠ 410 →
        waitForApproval (ApiResult.err s :: rest) = WaitOutcome.raised s) := by
  refine ⟨fun rest => by simp [waitForApproval], ?_, ?_⟩
  · intro n
    induction n with
    | zero => intro rest; simp
    | succ m ih =>
        intro rest
        simp only [List.replicate_succ, List.cons_append]
        simpa [waitForApproval] using ih rest
  · intro s rest h408 h410
    simp [waitForApproval, h408, h410]

theorem c6_wait_for_approval_policy_witness :
    waitForApproval (List.replicate 5 (ApiResult.err 408) ++ [ApiResult.err 500]) =
      WaitOutcome.raised 500 := by
  have h := c6_wait_for_approval_policy
  rw [h.2.1 5 [ApiResult.err 500]]
  exact h.2.2 500 [] (by decide) (by decide)

/-- C7: for the decay strategy with constant base score 6 and factor
1/2: the score is base times factor (= 3) exactly when the provider's
rejection counter is nonzero and the unchanged base (= 6) otherwise; a
confirmation resets the counter to 0 and a rejection increments it; and
all nine literal scenarios of the `sample_data` test table hold,
including the non-compounding ones (two rejections of provider 1 still
give score 3; rejected-confirmed-rejected for provider 1 gives 3). -/
theorem c7_decay_strategy :
    (∀ evs p, scoreOffer 6 (1/2) (rejectionCounts evs) p =
        if 0 < rejectionCounts evs p then 3 else 6) ∧
    (∀ evs p, rejectionCounts (evs ++ [AgreementEvent.confirmed p]) p = 0) ∧
    (∀ evs p, rejectionCounts (evs ++ [AgreementEvent.rejected p]) p =
        rejectionCounts evs p + 1) ∧
    (scoreRowMatches [] [] ∧
     scoreRowMatches [AgreementEvent.rejected 1] [1] ∧
     scoreRowMatches [AgreementEvent.rejected 2] [2] ∧
     scoreRowMatches [AgreementEvent.confirmed 1] [] ∧
     scoreRowMatches [AgreementEvent.rejected 1, AgreementEvent.confirmed 1] [] ∧
     scoreRowMatches [AgreementEvent.rejected 2, AgreementEvent.confirmed 1] [2] ∧
     scoreRowMatches [AgreementEvent.rejected 1, AgreementEvent.confirmed 2] [1] ∧
     scoreRowMatches [AgreementEvent.rejected 1, AgreementEvent.rejected 1] [1] ∧
     scoreRowMatches [AgreementEvent.rejected 1, AgreementEvent.confirmed 1,
                      AgreementEvent.rejected 1] [1]) := by
  refine ⟨?_, ?_, ?_, ?_⟩
  · intro evs p
    unfold scoreOffer
    split <;> norm_num
  · intro evs p
    simp [rejectionCounts, List.foldl_append, updateCount]
  · intro evs p
    simp [rejectionCounts, List.foldl_append, updateCount]
  · refine ⟨?_, ?_, ?_, ?_, ?_, ?_, ?_, ?_, ?_⟩ <;>
      · unfold scoreRowMatches expectedScore
        norm_num [scoreOffer, rejectionCounts, updateCount, List.foldl]

/-- C8: with implicit initialization enabled, the first script run in a
context evaluates to Deploy, Start, then its own commands in add order,
and marks the context started; running `_before` on any later script in
that (now started) context leaves it untouched, so it evaluates to
exactly its own commands; and `add` appends, so evaluation order is add
order. -/
theorem c8_implicit_init_once {R : Type} (cs cs2 : List (Command × Option R))
    (s : ScriptState R) (c : Command) :
    scriptEvaluate (scriptBefore (R := R) ⟨cs⟩ ⟨false, true⟩).1 =
      evaluateCmd Command.deploy :: evaluateCmd (Command.start []) :: scriptEvaluate ⟨cs⟩ ∧
    (scriptBefore (R := R) ⟨cs⟩ ⟨false, true⟩).2 = ⟨true, true⟩ ∧
    scriptBefore (R := R) ⟨cs2⟩ (scriptBefore (R := R) ⟨cs⟩ ⟨false, true⟩).2 =
      (⟨cs2⟩, (scriptBefore (R := R) ⟨cs⟩ ⟨false, true⟩).2) ∧
    scriptEvaluate (R := R) ⟨cs2⟩ = cs2.map (fun e => evaluateCmd e.1) ∧
    scriptEvaluate (scriptAdd s c).1 = scriptEvaluate s ++ [evaluateCmd c] := by
  refine ⟨rfl, rfl, rfl, rfl, ?_⟩
  simp [scriptAdd, scriptEvaluate]

/-- C9: a successful `_set_cmd_result` at index `i` resolves exactly the
result slot of the command at position `i` (that slot goes from pending
to resolved, every other position is untouched, the command itself and
the list length are preserved), and an index outside the range of added
commands fails with the local `IndexError` — it is never a recoverable
remote outcome. -/
theorem c9_result_correlation {R : Type} (s : ScriptState R) (idx : Nat) (r : R) :
    (∀ s1, setCmdResult s idx r = Except.ok s1 →
        s1.commands.length = s.commands.length ∧
        (∃ c, s.commands.get? idx = some (c, none) ∧
              s1.commands.get? idx = some (c, some r)) ∧
        ∀ j, j ≠ idx → s1.commands.get? j = s.commands.get? j) ∧
    (s.commands.length ≤ idx →
        setCmdResult s idx r = Except.error SetResultErr.indexOutOfRange) := by
  constructor
  · intro s1 hok
    unfold setCmdResult at hok
    cases hg : s.commands.get? idx with
    | none => rw [hg] at hok; exact absurd hok (by simp)
    | some entry =>
        rw [hg] at hok
        obtain ⟨c, slot⟩ := entry
        cases slot with
        | some r0 => exact absurd hok (by simp)
        | none =>
            simp only [Except.ok.injEq] at hok
            subst hok
            have hlt : idx < s.commands.length := by
              by_contra hcon
              rw [List.get?_eq_none.mpr (Nat.le_of_not_lt hcon)] at hg
              exact Option.noConfusion hg
            refine ⟨by simp, ⟨c, rfl, ?_⟩, ?_⟩
            · simp [List.getElem?_set_self, hlt]
            · intro j hj
              simp [List.getElem?_set_ne (Ne.symm hj)]
  · intro hle
    have hg : s.commands.get? idx = none := List.get?_eq_none.mpr hle
    unfold setCmdResult
    rw [hg]

theorem c9_result_correlation_witness :
    ((setCmdResult (⟨[(Command.deploy, none), (Command.run "echo" [], none)]⟩ : ScriptState Nat)
        1 42 = Except.ok ⟨[(Command.deploy, none), (Command.run "echo" [], some 42)]⟩ →
      True) ∧
     (⟨[(Command.deploy, none)]⟩ : ScriptState Nat).commands.length ≤ 3) ∧
    setCmdResult (⟨[(Command.deploy, none)]⟩ : ScriptState Nat) 3 42 =
      Except.error SetResultErr.indexOutOfRange :=
  ⟨⟨fun _ => trivial, by decide⟩,
   (c9_result_correlation (⟨[(Command.deploy, none)]⟩ : ScriptState Nat) 3 42).2 (by decide)⟩

/-- C10: constructing a resource with initial data for a (kind, id) pair
that is already registered fails the python assertion rather than
returning the existing instance; when the pair is not yet registered,
the data-supplied path always creates and registers a fresh instance
(one distinct from every previously registered one) carrying that data. -/
theorem c10_data_requires_fresh_id {D : Type} (s : NodeState D) (k i : String) (d : D) :
    ((lookupRes s k i).isSome = true →
      metaCall s k i (some d) = Except.error MetaErr.dataForExistingResource) ∧
    (lookupRes s k i = none → TokensBelowCounter s →
      ∃ s1 r, metaCall s k i (some d) = Except.ok (s1, r) ∧
        r.rdata = some d ∧
        lookupRes s1 k i = some r ∧
        ∀ e ∈ s.resources, e.2.2.token ≠ r.token) := by
  constructor
  · intro h
    simp [metaCall, h]
  · intro h hwf
    refine ⟨_, _, metaCall_fresh s k i (some d) h, rfl,
      lookupRes_after_insert s k i _ _ _, ?_⟩
    intro e he
    exact Nat.ne_of_lt (hwf e he)

theorem c10_data_requires_fresh_id_witness :
    (metaCall (D := Nat)
        ⟨[("Demand", "d1", ⟨0, "Demand", "d1", none⟩)], [BusEvent.newResource 0], 1⟩
        "Demand" "d1" (some 3) = Except.error MetaErr.dataForExistingResource) ∧
    (∃ s1 r, metaCall (D := Nat)
        ⟨[("Demand", "d1", ⟨0, "Demand", "d1", none⟩)], [BusEvent.newResource 0], 1⟩
        "Agreement" "a1" (some 9) = Except.ok (s1, r) ∧
      r.rdata = some 9 ∧
      lookupRes s1 "Agreement" "a1" = some r ∧
      ∀ e ∈ [("Demand", "d1", (⟨0, "Demand", "d1", none⟩ : Res Nat))], e.2.2.token ≠ r.token) :=
  ⟨(c10_data_requires_fresh_id _ "Demand" "d1" 3).1 rfl,
   (c10_data_requires_fresh_id
      ⟨[("Demand", "d1", ⟨0, "Demand", "d1", none⟩)], [BusEvent.newResource 0], 1⟩
      "Agreement" "a1" 9).2 rfl
      (by intro e he; rcases List.mem_singleton.mp he with rfl; decide)⟩
